import Mathlib

/-!
Verification development for the citation relation query engine of the
ArticlesCitationsService (TENJI repository).

The service builds Cypher count/page queries over a property graph,
executes them, enriches page rows through an Elasticsearch index, and
merges the results with a boolean "has name" stable tie-break.

We give a shallow embedding in two layers:
 * a Cypher evaluation layer for the exact query texts the service
   constructs (match patterns, optional name resolution, the 3-valued
   WHERE predicate, DISTINCT, ORDER BY, SKIP/LIMIT);
 * a service layer for the eight public operations, parameterized by the
   store responses (modelled as Except values, mirroring the JS promise
   combinators used in the source).
-/

namespace TENJI

/-! ### Strings: case-insensitive substring containment (Cypher CONTAINS) -/

/-- Does the first list occur at the head of the second list? -/
def startsWithChars : List Char → List Char → Bool
  | [], _ => true
  | _ :: _, [] => false
  | p :: ps, h :: hs => p == h && startsWithChars ps hs

/-- Does the second list occur contiguously inside the first list? -/
def hasSubChars : List Char → List Char → Bool
  | [], pat => startsWithChars pat []
  | h :: t, pat => startsWithChars pat (h :: t) || hasSubChars t pat

/-- Model of the Cypher string operator CONTAINS on non-null operands. -/
def strContainsSub (hay pat : String) : Bool :=
  hasSubChars hay.data pat.data

/-- Model of the Cypher function toLower on a non-null operand. -/
def strToLower (s : String) : String :=
  ⟨s.data.map Char.toLower⟩

/-! ### Cypher three-valued logic -/

/-- Cypher boolean expressions evaluate to true, false, or null. -/
inductive Tri
  | tt
  | ff
  | uu
deriving DecidableEq

/-- Kleene disjunction, as implemented by Cypher OR. -/
def triOr : Tri → Tri → Tri
  | Tri.tt, _ => Tri.tt
  | _, Tri.tt => Tri.tt
  | Tri.ff, Tri.ff => Tri.ff
  | _, _ => Tri.uu

/-- Model of the clause toLower(field) CONTAINS toLower($searchTerm):
a null field makes the comparison null, otherwise it is the case-folded
substring test.  The search term parameter itself is never null here. -/
def triContainsLower : Option String → String → Tri
  | none, _ => Tri.uu
  | some s, t =>
      if strContainsSub (strToLower s) (strToLower t) then Tri.tt else Tri.ff

/-- A WHERE clause keeps a row only when its condition is true
(null and false both drop the row). -/
def wherePass : Tri → Bool
  | Tri.tt => true
  | Tri.ff => false
  | Tri.uu => false

/-! ### The property graph -/

/-- Properties a node of the legal-knowledge graph may carry.  All text
properties are optional (graph nodes are schemaless); citing_cases is the
popularity counter used by ORDER BY. -/
structure Props where
  number : Option String := none
  text : Option String := none
  judgment : Option String := none
  facts : Option String := none
  reasoning : Option String := none
  headnotes : Option String := none
  year : Option String := none
  decision_type : Option String := none
  context : Option String := none
  short : Option String := none
  citing_cases : Int := 0
deriving DecidableEq

/-- A graph node: store identifier (the elementId), label, properties. -/
structure GNode where
  id : Nat
  label : String
  props : Props
deriving DecidableEq

/-- A directed relationship.  Parallel relationships of the same type
between the same pair of nodes are allowed, as in Neo4j. -/
structure GEdge where
  src : Nat
  rel : String
  dst : Nat
deriving DecidableEq

/-- A property graph. -/
structure Graph where
  nodes : List GNode
  edges : List GEdge
deriving DecidableEq

/-- Look a node up by its store identifier. -/
def Graph.findNode (g : Graph) (i : Nat) : Option GNode :=
  g.nodes.find? fun n => n.id == i

/-- Rows of MATCH (x:srcLabel)-[:rel]->(y:dstLabel {number: $id}),
returning the source-side binding x: one row per matching relationship. -/
def matchSrcSubjects (g : Graph) (rel srcLabel dstLabel : String) (id : String) :
    List GNode :=
  g.edges.filterMap fun e =>
    if e.rel == rel then
      match g.findNode e.src, g.findNode e.dst with
      | some x, some y =>
          if x.label == srcLabel && y.label == dstLabel &&
              y.props.number == some id then some x else none
      | _, _ => none
    else none

/-- Rows of MATCH (x:srcLabel {number: $id})-[:rel]->(y:dstLabel),
returning the destination-side binding y. -/
def matchDstSubjects (g : Graph) (rel srcLabel dstLabel : String) (id : String) :
    List GNode :=
  g.edges.filterMap fun e =>
    if e.rel == rel then
      match g.findNode e.src, g.findNode e.dst with
      | some x, some y =>
          if x.label == srcLabel && y.label == dstLabel &&
              x.props.number == some id then some y else none
      | _, _ => none
    else none

/-- OPTIONAL MATCH (x)-[:IS_NAMED]->(n:Name): if x has no Name the single
binding is null, otherwise one binding per matching Name node. -/
def namedNodes (g : Graph) (x : GNode) : List (Option GNode) :=
  let ns := g.edges.filterMap fun e =>
    if e.rel == "IS_NAMED" && e.src == x.id then
      match g.findNode e.dst with
      | some n => if n.label == "Name" then some n else none
      | none => none
    else none
  match ns with
  | [] => [none]
  | ms => ms.map some

/-- Combine a subject row list with the optional Name match: the row set
after WITH x, n. -/
def optNameRows (g : Graph) (subjects : List GNode) : List (GNode × Option GNode) :=
  subjects.flatMap fun x => (namedNodes g x).map fun n => (x, n)

/-- Accessing n.short when n may be null. -/
def nameShort (n : Option GNode) : Option String :=
  n.bind fun m => m.props.short

/-! ### The search conditions built by getSearchCondition -/

/-- Condition of the article-flavoured queries:
toLower(n.short) CONTAINS lowerSearch OR toLower(x.number) CONTAINS
lowerSearch OR toLower(x.text) CONTAINS lowerSearch. -/
def condArticles (t : String) (x : GNode) (n : Option GNode) : Tri :=
  triOr (triContainsLower (nameShort n) t)
    (triOr (triContainsLower x.props.number t)
      (triContainsLower x.props.text t))

/-- Condition of the cases-citing-article queries, over the eight
declared case fields plus the resolved case name. -/
def condCases (t : String) (x : GNode) (n : Option GNode) : Tri :=
  triOr (triContainsLower (nameShort n) t)
    (triOr (triContainsLower x.props.number t)
      (triOr (triContainsLower x.props.judgment t)
        (triOr (triContainsLower x.props.facts t)
          (triOr (triContainsLower x.props.reasoning t)
            (triOr (triContainsLower x.props.headnotes t)
              (triOr (triContainsLower x.props.year t)
                (triContainsLower x.props.decision_type t)))))))

/-- Condition of the references query: context and text fields. -/
def condReferences (t : String) (x : GNode) : Tri :=
  triOr (triContainsLower x.props.context t)
    (triContainsLower x.props.text t)

/-- The JS truthiness test `!searchTerm` used by every getSearchCondition
helper: an absent or empty search term emits no WHERE clause. -/
def searchTermPresent : Option String → Bool
  | none => false
  | some t => !(t == "")

/-- Apply an optional search condition to the row set, as the generated
query text does: no term (or the empty term) emits no WHERE clause. -/
def filterRows (cond : String → GNode → Option GNode → Tri)
    (searchTerm : Option String) (rows : List (GNode × Option GNode)) :
    List (GNode × Option GNode) :=
  match searchTerm with
  | none => rows
  | some t =>
      if t == "" then rows
      else rows.filter fun r => wherePass (cond t r.1 r.2)

/-- Same, for a condition over a bare subject row (references query). -/
def filterBareRows (cond : String → GNode → Tri)
    (searchTerm : Option String) (rows : List GNode) : List GNode :=
  match searchTerm with
  | none => rows
  | some t =>
      if t == "" then rows
      else rows.filter fun r => wherePass (cond t r)

/-! ### DISTINCT, ORDER BY, SKIP/LIMIT -/

/-- RETURN DISTINCT: drop duplicate output rows, keeping first occurrences. -/
def dedupFirst {α : Type} [BEq α] : List α → List α
  | [] => []
  | a :: l => a :: (dedupFirst l).filter fun b => !(a == b)

/-- Insert into a sorted list, before the first element that may follow
the inserted one.  Used to model the store's stable ORDER BY and the
stable ECMAScript Array sort. -/
def sInsert {α : Type} (le : α → α → Bool) (a : α) : List α → List α
  | [] => [a]
  | b :: l => if le a b then a :: b :: l else b :: sInsert le a l

/-- Stable insertion sort: an element is placed before every later
element it compares less-or-equal to. -/
def sSort {α : Type} (le : α → α → Bool) : List α → List α
  | [] => []
  | a :: l => sInsert le a (sSort le l)

/-! ### The four query evaluations -/

/-- One output row of the cited-by page query:
RETURN DISTINCT a, n.short AS name, elementId(a) AS elementId. -/
structure CitedByRecord where
  a : Props
  name : Option String
  elementId : Nat
deriving DecidableEq

/-- One output row of the citing page query (subject bound to b). -/
structure CitingRecord where
  b : Props
  name : Option String
  elementId : Nat
deriving DecidableEq

/-- One output row of the cases-citing-article page query. -/
structure CaseRecord where
  c : Props
  caseName : Option String
  elementId : Nat
deriving DecidableEq

/-- One output row of the references page query: RETURN DISTINCT r. -/
structure ReferenceRecord where
  r : Props
deriving DecidableEq

/-- Row set of MATCH (a:Article)-[:CITES]->(b:Article {number: $articleId})
OPTIONAL MATCH (a)-[:IS_NAMED]->(n:Name) WITH a, n. -/
def citedByRows (g : Graph) (articleId : String) : List (GNode × Option GNode) :=
  optNameRows g (matchSrcSubjects g "CITES" "Article" "Article" articleId)

/-- Cited-by rows surviving the optional search condition; shared by the
count query and the page query, which interpolate the identical
getSearchCondition text. -/
def citedByFiltered (g : Graph) (articleId : String) (searchTerm : Option String) :
    List (GNode × Option GNode) :=
  filterRows condArticles searchTerm (citedByRows g articleId)

/-- Value of RETURN count(a) AS totalCount in the cited-by count query:
the aggregate counts every surviving row (no DISTINCT). -/
def citedByCountValue (g : Graph) (articleId : String)
    (searchTerm : Option String) : Nat :=
  (citedByFiltered g articleId searchTerm).length

/-- Projection of a cited-by row to the returned record. -/
def citedByProjected (g : Graph) (articleId : String)
    (searchTerm : Option String) : List CitedByRecord :=
  (citedByFiltered g articleId searchTerm).map fun r =>
    ⟨r.1.props, nameShort r.2, r.1.id⟩

/-- ORDER BY a.citing_cases DESC comparison for cited-by records. -/
def citedByLe (p q : CitedByRecord) : Bool :=
  decide (q.a.citing_cases ≤ p.a.citing_cases)

/-- The cited-by page query before SKIP/LIMIT: DISTINCT then ORDER BY. -/
def citedByPageAll (g : Graph) (articleId : String)
    (searchTerm : Option String) : List CitedByRecord :=
  sSort citedByLe (dedupFirst (citedByProjected g articleId searchTerm))

/-- Full cited-by page query result: SKIP $skip LIMIT $limit. -/
def citedByPage (g : Graph) (articleId : String) (searchTerm : Option String)
    (skip limit : Nat) : List CitedByRecord :=
  (((citedByPageAll g articleId searchTerm).drop skip).take limit)

/-- Row set of MATCH (a:Article {number: $articleId})-[:CITES]->(b:Article)
OPTIONAL MATCH (b)-[:IS_NAMED]->(n:Name) WITH b, n. -/
def citingRows (g : Graph) (articleId : String) : List (GNode × Option GNode) :=
  optNameRows g (matchDstSubjects g "CITES" "Article" "Article" articleId)

/-- Citing rows surviving the optional search condition. -/
def citingFiltered (g : Graph) (articleId : String) (searchTerm : Option String) :
    List (GNode × Option GNode) :=
  filterRows condArticles searchTerm (citingRows g articleId)

/-- Value of RETURN count(b) AS totalCount in the citing count query. -/
def citingCountValue (g : Graph) (articleId : String)
    (searchTerm : Option String) : Nat :=
  (citingFiltered g articleId searchTerm).length

/-- Projection of a citing row to the returned record. -/
def citingProjected (g : Graph) (articleId : String)
    (searchTerm : Option String) : List CitingRecord :=
  (citingFiltered g articleId searchTerm).map fun r =>
    ⟨r.1.props, nameShort r.2, r.1.id⟩

/-- ORDER BY b.citing_cases DESC comparison for citing records. -/
def citingLe (p q : CitingRecord) : Bool :=
  decide (q.b.citing_cases ≤ p.b.citing_cases)

/-- The citing page query before SKIP/LIMIT. -/
def citingPageAll (g : Graph) (articleId : String)
    (searchTerm : Option String) : List CitingRecord :=
  sSort citingLe (dedupFirst (citingProjected g articleId searchTerm))

/-- Full citing page query result. -/
def citingPage (g : Graph) (articleId : String) (searchTerm : Option String)
    (skip limit : Nat) : List CitingRecord :=
  (((citingPageAll g articleId searchTerm).drop skip).take limit)

/-- Row set of MATCH (c:Case)-[:REFERS_TO]->(a:Article {number: $articleId})
OPTIONAL MATCH (c)-[:IS_NAMED]->(n:Name) WITH c, n. -/
def casesRows (g : Graph) (articleId : String) : List (GNode × Option GNode) :=
  optNameRows g (matchSrcSubjects g "REFERS_TO" "Case" "Article" articleId)

/-- Cases rows surviving the optional search condition. -/
def casesFiltered (g : Graph) (articleId : String) (searchTerm : Option String) :
    List (GNode × Option GNode) :=
  filterRows condCases searchTerm (casesRows g articleId)

/-- Value of RETURN count(c) AS totalCount in the cases count query. -/
def casesCountValue (g : Graph) (articleId : String)
    (searchTerm : Option String) : Nat :=
  (casesFiltered g articleId searchTerm).length

/-- Projection of a cases row to the returned record. -/
def casesProjected (g : Graph) (articleId : String)
    (searchTerm : Option String) : List CaseRecord :=
  (casesFiltered g articleId searchTerm).map fun r =>
    ⟨r.1.props, nameShort r.2, r.1.id⟩

/-- ORDER BY c.citing_cases DESC comparison for case records. -/
def casesLe (p q : CaseRecord) : Bool :=
  decide (q.c.citing_cases ≤ p.c.citing_cases)

/-- The cases page query before SKIP/LIMIT. -/
def casesPageAll (g : Graph) (articleId : String)
    (searchTerm : Option String) : List CaseRecord :=
  sSort casesLe (dedupFirst (casesProjected g articleId searchTerm))

/-- Full cases page query result. -/
def casesPage (g : Graph) (articleId : String) (searchTerm : Option String)
    (skip limit : Nat) : List CaseRecord :=
  (((casesPageAll g articleId searchTerm).drop skip).take limit)

/-- Row set of MATCH (r:Reference)-[:MENTIONS]->(a:Article {number: $articleId}). -/
def referencesRows (g : Graph) (articleId : String) : List GNode :=
  matchSrcSubjects g "MENTIONS" "Reference" "Article" articleId

/-- References rows surviving the optional search condition. -/
def referencesFiltered (g : Graph) (articleId : String)
    (searchTerm : Option String) : List GNode :=
  filterBareRows condReferences searchTerm (referencesRows g articleId)

/-- Value of RETURN count(r) AS totalCount in the references count query. -/
def referencesCountValue (g : Graph) (articleId : String)
    (searchTerm : Option String) : Nat :=
  (referencesFiltered g articleId searchTerm).length

/-- Projection of a references row to RETURN DISTINCT r. -/
def referencesProjected (g : Graph) (articleId : String)
    (searchTerm : Option String) : List ReferenceRecord :=
  (referencesFiltered g articleId searchTerm).map fun r => ⟨r.props⟩

/-- The references page query before SKIP/LIMIT (no ORDER BY clause). -/
def referencesPageAll (g : Graph) (articleId : String)
    (searchTerm : Option String) : List ReferenceRecord :=
  dedupFirst (referencesProjected g articleId searchTerm)

/-- Full references page query result. -/
def referencesPage (g : Graph) (articleId : String) (searchTerm : Option String)
    (skip limit : Nat) : List ReferenceRecord :=
  (((referencesPageAll g articleId searchTerm).drop skip).take limit)

/-! ### The service layer -/

/-- The neo4j JavaScript driver represents a 64-bit integer as the pair
of its 32-bit words; a count c is delivered as low = c mod 2^32,
high = c div 2^32. -/
structure Neo4jInt where
  low : Nat
  high : Nat
deriving DecidableEq

/-- The driver value delivered for an actual store count. -/
def Neo4jInt.ofCount (c : Nat) : Neo4jInt :=
  ⟨c % 2 ^ 32, c / 2 ^ 32⟩

/-- Failures a service operation can end in: an error propagated from a
store client, or the TypeError raised by accessing a property of an
undefined record. -/
inductive QueryError
  | store : String → QueryError
  | typeError : QueryError
deriving DecidableEq

/-- The JS idiom `n || 0` on a non-negative integer: 0 stays 0 (it is
falsy), any other value is returned unchanged. -/
def jsOr0 (n : Nat) : Nat :=
  if n == 0 then 0 else n

/-- The expression countResult[0]?.get('totalCount').low || 0 used by the
four page operations: an empty row list short-circuits to undefined and
the disjunction defaults it to 0. -/
def extractTotal (countResult : List Neo4jInt) : Nat :=
  match countResult with
  | [] => 0
  | r :: _ => jsOr0 r.low

/-- A document from the search index (a hit's _source): a flat map, of
which the service reads the number, name and caseName fields. -/
structure ESDoc where
  number : Option String := none
  name : Option String := none
  caseName : Option String := none
deriving DecidableEq

/-- JS truthiness of an optional string field: null, undefined and the
empty string are falsy. -/
def isTruthy : Option String → Bool
  | none => false
  | some s => !(s == "")

/-- The key a['name'] ? 1 : 0 of the article-flavoured comparator. -/
def hasNameKey (d : ESDoc) : Nat :=
  if isTruthy d.name then 1 else 0

/-- The key a['caseName'] ? 1 : 0 of the case-flavoured comparator. -/
def hasCaseNameKey (d : ESDoc) : Nat :=
  if isTruthy d.caseName then 1 else 0

/-- The stable ECMAScript sort with comparator (a, b) =>
(b['name'] ? 1 : 0) - (a['name'] ? 1 : 0): named documents first,
ties keep their prior relative order. -/
def sortByNameKey (l : List ESDoc) : List ESDoc :=
  sSort (fun a b => decide (hasNameKey b ≤ hasNameKey a)) l

/-- The same sort keyed on caseName, used by the cases operation. -/
def sortByCaseNameKey (l : List ESDoc) : List ESDoc :=
  sSort (fun a b => decide (hasCaseNameKey b ≤ hasCaseNameKey a)) l

/-- Promise.all over the per-row lookups: succeeds with the list of all
results, or fails with the error of a failing member. -/
def promiseAll {α : Type} : List (Except QueryError α) → Except QueryError (List α)
  | [] => Except.ok []
  | x :: xs => do
    let a ← x
    let as ← promiseAll xs
    pure (a :: as)

/-- The plain record {...article, id: citedArticleId, name} built from a
page row of the article-flavoured queries. -/
structure ArticleData where
  props : Props
  id : Nat
  name : Option String
deriving DecidableEq

/-- The plain record {...caseg, id: caseId, caseName} built from a page
row of the cases query. -/
structure CaseData where
  props : Props
  id : Nat
  caseName : Option String
deriving DecidableEq

/-- Result shape { articles, total } of the article-flavoured page
operations. -/
structure ArticlesPageResult where
  articles : List ESDoc
  total : Nat
deriving DecidableEq

/-- Result shape { cases, total } of the cases page operation. -/
structure CasesPageResult where
  cases : List ESDoc
  total : Nat
deriving DecidableEq

/-- Result shape { references, total } of the references page operation. -/
structure ReferencesPageResult where
  references : List Props
  total : Nat
deriving DecidableEq

/-- getCitedByArticles, parameterized by the responses of the two graph
queries and by the search-index client (one lookup per page row, keyed
by the row's number property, against the articles index).  Mirrors the
source's control flow: both graph queries are awaited jointly, the total
is extracted defensively, the rows are normalized, enriched, flattened
and reordered; any failure rejects the whole operation. -/
def getCitedByArticles
    (runCountQuery : Except QueryError (List Neo4jInt))
    (runArticlesQuery : Except QueryError (List CitedByRecord))
    (search : Option String → Except QueryError (List ESDoc)) :
    Except QueryError ArticlesPageResult := do
  let countResult ← runCountQuery
  let articlesResult ← runArticlesQuery
  let totalCount := extractTotal countResult
  let articles := articlesResult.map fun record =>
    ArticleData.mk record.a record.elementId record.name
  let elasticSearchResults ← promiseAll
    (articles.map fun articleData => search articleData.props.number)
  let flattenedResults := sortByNameKey elasticSearchResults.flatten
  pure ⟨flattenedResults, totalCount⟩

/-- getCitedByArticlesCount: reads result[0].get('count').low with no
optional chaining, so an empty response raises a TypeError. -/
def getCitedByArticlesCount
    (run : Except QueryError (List Neo4jInt)) : Except QueryError Nat := do
  let result ← run
  match result with
  | [] => Except.error QueryError.typeError
  | r :: _ => pure r.low

/-- getArticleCitingOtherArticles, same shape as getCitedByArticles with
the subject bound to b. -/
def getArticleCitingOtherArticles
    (runCountQuery : Except QueryError (List Neo4jInt))
    (runArticlesQuery : Except QueryError (List CitingRecord))
    (search : Option String → Except QueryError (List ESDoc)) :
    Except QueryError ArticlesPageResult := do
  let countResult ← runCountQuery
  let articlesResult ← runArticlesQuery
  let totalCount := extractTotal countResult
  let articles := articlesResult.map fun record =>
    ArticleData.mk record.b record.elementId record.name
  let elasticSearchResults ← promiseAll
    (articles.map fun articleData => search articleData.props.number)
  let flattenedResults := sortByNameKey elasticSearchResults.flatten
  pure ⟨flattenedResults, totalCount⟩

/-- getArticleCitingOtherArticlesCount: same unguarded scalar read. -/
def getArticleCitingOtherArticlesCount
    (run : Except QueryError (List Neo4jInt)) : Except QueryError Nat := do
  let result ← run
  match result with
  | [] => Except.error QueryError.typeError
  | r :: _ => pure r.low

/-- getCasesCitingArticle, enriching against the cases index and
reordering on the caseName key. -/
def getCasesCitingArticle
    (runCountQuery : Except QueryError (List Neo4jInt))
    (runCasesQuery : Except QueryError (List CaseRecord))
    (search : Option String → Except QueryError (List ESDoc)) :
    Except QueryError CasesPageResult := do
  let countResult ← runCountQuery
  let casesResult ← runCasesQuery
  let totalCount := extractTotal countResult
  let cases := casesResult.map fun record =>
    CaseData.mk record.c record.elementId record.caseName
  let elasticSearchResults ← promiseAll
    (cases.map fun caseData => search caseData.props.number)
  let flattenedResults := sortByCaseNameKey elasticSearchResults.flatten
  pure ⟨flattenedResults, totalCount⟩

/-- getCasesCitingArticleCount: same unguarded scalar read. -/
def getCasesCitingArticleCount
    (run : Except QueryError (List Neo4jInt)) : Except QueryError Nat := do
  let result ← run
  match result with
  | [] => Except.error QueryError.typeError
  | r :: _ => pure r.low

/-- getReferencesWithArticle: both graph queries awaited jointly, total
extracted defensively, items are the raw property maps {...reference} of
the page rows — no enrichment, no merge step. -/
def getReferencesWithArticle
    (runCountQuery : Except QueryError (List Neo4jInt))
    (runReferencesQuery : Except QueryError (List ReferenceRecord)) :
    Except QueryError ReferencesPageResult := do
  let countResult ← runCountQuery
  let referencesResult ← runReferencesQuery
  let totalCount := extractTotal countResult
  let references := referencesResult.map fun record => record.r
  pure ⟨references, totalCount⟩

/-- getReferencesWithArticleCount: same unguarded scalar read. -/
def getReferencesWithArticleCount
    (run : Except QueryError (List Neo4jInt)) : Except QueryError Nat := do
  let result ← run
  match result with
  | [] => Except.error QueryError.typeError
  | r :: _ => pure r.low

/-! ### End-to-end composition: query evaluation plugged into operations -/

/-- The caller-supplied filter DTO. -/
structure Filter where
  articleId : String
  searchTerm : Option String := none
  skip : Nat := 0
  limit : Nat := 0

/-- getCitedByArticles run against a graph g and a search index es (the
list of article documents matching a number key). -/
def runCitedBy (g : Graph) (es : Option String → List ESDoc) (f : Filter) :
    Except QueryError ArticlesPageResult :=
  getCitedByArticles
    (Except.ok [Neo4jInt.ofCount (citedByCountValue g f.articleId f.searchTerm)])
    (Except.ok (citedByPage g f.articleId f.searchTerm f.skip f.limit))
    (fun k => Except.ok (es k))

/-- getArticleCitingOtherArticles run against a graph and search index. -/
def runCiting (g : Graph) (es : Option String → List ESDoc) (f : Filter) :
    Except QueryError ArticlesPageResult :=
  getArticleCitingOtherArticles
    (Except.ok [Neo4jInt.ofCount (citingCountValue g f.articleId f.searchTerm)])
    (Except.ok (citingPage g f.articleId f.searchTerm f.skip f.limit))
    (fun k => Except.ok (es k))

/-- getCasesCitingArticle run against a graph and search index. -/
def runCasesCiting (g : Graph) (es : Option String → List ESDoc) (f : Filter) :
    Except QueryError CasesPageResult :=
  getCasesCitingArticle
    (Except.ok [Neo4jInt.ofCount (casesCountValue g f.articleId f.searchTerm)])
    (Except.ok (casesPage g f.articleId f.searchTerm f.skip f.limit))
    (fun k => Except.ok (es k))

/-- getReferencesWithArticle run against a graph. -/
def runReferences (g : Graph) (f : Filter) :
    Except QueryError ReferencesPageResult :=
  getReferencesWithArticle
    (Except.ok [Neo4jInt.ofCount (referencesCountValue g f.articleId f.searchTerm)])
    (Except.ok (referencesPage g f.articleId f.searchTerm f.skip f.limit))

/-! ### Statement helpers and example fixtures -/

/-- The property a non-null field must have for the search predicate to
accept the row through it: it is present and, case-folded, contains the
case-folded term as a substring. -/
def fieldMatches (o : Option String) (t : String) : Prop :=
  ∃ s, o = some s ∧ strContainsSub (strToLower s) (strToLower t) = true

/-- Article node with number 5, the query subject of the examples. -/
def artFive : GNode := ⟨0, "Article", { number := some "5" }⟩

/-- Article node with number 1. -/
def artOne : GNode := ⟨1, "Article", { number := some "1" }⟩

/-- A graph in which article 1 cites article 5 through two parallel
CITES relationships. -/
def gParallelCites : Graph :=
  ⟨[artFive, artOne], [⟨1, "CITES", 0⟩, ⟨1, "CITES", 0⟩]⟩

/-- A Reference node. -/
def refNode : GNode := ⟨1, "Reference", { context := some "ctx" }⟩

/-- A graph in which one Reference mentions article 5 through two
parallel MENTIONS relationships. -/
def gParallelMentions : Graph :=
  ⟨[artFive, refNode], [⟨1, "MENTIONS", 0⟩, ⟨1, "MENTIONS", 0⟩]⟩

/-- A page row with every property absent. -/
def sampleRecord : CitedByRecord := ⟨{}, none, 0⟩

/-- An index document carrying a resolved name. -/
def docNamed : ESDoc := ⟨some "1", some "Alpha", none⟩

/-- An index document with no name field. -/
def docNoName : ESDoc := ⟨some "2", none, none⟩

/-- An index document whose name field is present but empty (falsy). -/
def docEmptyName : ESDoc := ⟨some "3", some "", none⟩

/-! ### Helper lemmas -/

theorem promiseAll_map_ok {α β : Type} (l : List α) (f : α → β) :
    promiseAll (l.map fun a => Except.ok (f a)) = Except.ok (l.map f) := by
  induction l with
  | nil => rfl
  | cons a t ih => simp only [List.map_cons, promiseAll, ih]; rfl

theorem promiseAll_err_at {α : Type} (e : QueryError)
    (l₁ l₂ : List (Except QueryError α))
    (h : ∀ x ∈ l₁, x = Except.error e ∨ ∃ a, x = Except.ok a) :
    promiseAll (l₁ ++ Except.error e :: l₂) = Except.error e := by
  induction l₁ with
  | nil => rfl
  | cons x t ih =>
      have hrest : promiseAll (t ++ Except.error e :: l₂) = Except.error e :=
        ih fun y hy => h y (List.mem_cons_of_mem _ hy)
      rcases h x (List.mem_cons_self _ _) with hx | ⟨a, hx⟩ <;>
        rw [List.cons_append, hx]
      · rfl
      · simp only [promiseAll, hrest]; rfl

theorem promiseAll_map_err {ρ α : Type} (e : QueryError)
    (f : ρ → Except QueryError α) (rs₁ : List ρ) (r : ρ) (rs₂ : List ρ)
    (hr : f r = Except.error e)
    (hok : ∀ x ∈ rs₁, f x = Except.error e ∨ ∃ a, f x = Except.ok a) :
    promiseAll ((rs₁ ++ r :: rs₂).map f) = Except.error e := by
  rw [List.map_append, List.map_cons, hr]
  exact promiseAll_err_at e _ _ fun x hx => by
    obtain ⟨y, hy, rfl⟩ := List.mem_map.mp hx
    exact hok y hy

theorem length_sInsert {α : Type} (le : α → α → Bool) (a : α) (l : List α) :
    (sInsert le a l).length = l.length + 1 := by
  induction l with
  | nil => rfl
  | cons b t ih =>
      by_cases h : le a b <;> simp [sInsert, h, ih]

theorem length_sSort {α : Type} (le : α → α → Bool) (l : List α) :
    (sSort le l).length = l.length := by
  induction l with
  | nil => rfl
  | cons a t ih => simp [sSort, length_sInsert, ih]

theorem length_dedupFirst_le {α : Type} [BEq α] (l : List α) :
    (dedupFirst l).length ≤ l.length := by
  induction l with
  | nil => simp [dedupFirst]
  | cons a t ih =>
      simp only [dedupFirst, List.length_cons]
      exact Nat.succ_le_succ (Nat.le_trans (List.length_filter_le _ _) ih)

theorem dedupFirst_of_nodup {α : Type} [DecidableEq α] (l : List α)
    (h : l.Nodup) : dedupFirst l = l := by
  induction l with
  | nil => rfl
  | cons a t ih =>
      rcases List.nodup_cons.mp h with ⟨ha, ht⟩
      simp only [dedupFirst, ih ht]
      congr 1
      exact List.filter_eq_self.mpr fun b hb => by
        simp only [Bool.not_eq_true', beq_eq_false_iff_ne]
        exact fun heq => ha (by rw [heq]; exact hb)

theorem sInsert_key_one {α : Type} (f : α → Nat) (a : α) (l1 l0 : List α)
    (ha : f a = 1) (h1 : ∀ x ∈ l1, f x = 1) (h0 : ∀ x ∈ l0, f x = 0) :
    sInsert (fun p q => decide (f q ≤ f p)) a (l1 ++ l0) = a :: (l1 ++ l0) := by
  cases l1 with
  | cons b t =>
      have hb : f b = 1 := h1 b (List.mem_cons_self _ _)
      simp [sInsert, ha, hb]
  | nil =>
      cases l0 with
      | nil => rfl
      | cons c t =>
          have hc : f c = 0 := h0 c (List.mem_cons_self _ _)
          simp [sInsert, ha, hc]

theorem sInsert_key_zero {α : Type} (f : α → Nat) (a : α) (l1 l0 : List α)
    (ha : f a = 0) (h1 : ∀ x ∈ l1, f x = 1) (h0 : ∀ x ∈ l0, f x = 0) :
    sInsert (fun p q => decide (f q ≤ f p)) a (l1 ++ l0) = l1 ++ a :: l0 := by
  induction l1 with
  | nil =>
      cases l0 with
      | nil => rfl
      | cons c t =>
          have hc : f c = 0 := h0 c (List.mem_cons_self _ _)
          simp [sInsert, ha, hc]
  | cons b t ih =>
      have hb : f b = 1 := h1 b (List.mem_cons_self _ _)
      have : sInsert (fun p q => decide (f q ≤ f p)) a (t ++ l0) = t ++ a :: l0 :=
        ih fun x hx => h1 x (List.mem_cons_of_mem _ hx)
      simp [sInsert, ha, hb, this]

theorem sSort_binary_partition {α : Type} (f : α → Nat)
    (hf : ∀ x, f x = 0 ∨ f x = 1) (l : List α) :
    sSort (fun p q => decide (f q ≤ f p)) l =
      l.filter (fun x => f x == 1) ++ l.filter (fun x => f x == 0) := by
  induction l with
  | nil => rfl
  | cons a t ih =>
      have h1 : ∀ x ∈ t.filter (fun x => f x == 1), f x = 1 := fun x hx => by
        have := (List.mem_filter.mp hx).2
        exact beq_iff_eq.mp this
      have h0 : ∀ x ∈ t.filter (fun x => f x == 0), f x = 0 := fun x hx => by
        have := (List.mem_filter.mp hx).2
        exact beq_iff_eq.mp this
      rcases hf a with ha | ha
      · have := sInsert_key_zero f a _ _ ha h1 h0
        simp only [sSort, ih, this, List.filter_cons, ha]
        simp
      · have := sInsert_key_one f a _ _ ha h1 h0
        simp only [sSort, ih, this, List.filter_cons, ha]
        simp

theorem hasNameKey_binary (d : ESDoc) : hasNameKey d = 0 ∨ hasNameKey d = 1 := by
  unfold hasNameKey
  by_cases h : isTruthy d.name <;> simp [h]

theorem hasCaseNameKey_binary (d : ESDoc) :
    hasCaseNameKey d = 0 ∨ hasCaseNameKey d = 1 := by
  unfold hasCaseNameKey
  by_cases h : isTruthy d.caseName <;> simp [h]

theorem hasNameKey_eq_one (d : ESDoc) : (hasNameKey d == 1) = isTruthy d.name := by
  unfold hasNameKey
  by_cases h : isTruthy d.name <;> simp [h]

theorem hasNameKey_eq_zero (d : ESDoc) : (hasNameKey d == 0) = !isTruthy d.name := by
  unfold hasNameKey
  by_cases h : isTruthy d.name <;> simp [h]

theorem hasCaseNameKey_eq_one (d : ESDoc) :
    (hasCaseNameKey d == 1) = isTruthy d.caseName := by
  unfold hasCaseNameKey
  by_cases h : isTruthy d.caseName <;> simp [h]

theorem hasCaseNameKey_eq_zero (d : ESDoc) :
    (hasCaseNameKey d == 0) = !isTruthy d.caseName := by
  unfold hasCaseNameKey
  by_cases h : isTruthy d.caseName <;> simp [h]

theorem jsOr0_eq (n : Nat) : jsOr0 n = n := by
  unfold jsOr0
  by_cases h : n = 0 <;> simp [h]

theorem extractTotal_cons (lo hi : Nat) (rest : List Neo4jInt) :
    extractTotal (⟨lo, hi⟩ :: rest) = lo := by
  simp [extractTotal, jsOr0_eq]

theorem getCitedByArticles_ok (cs : List Neo4jInt) (rs : List CitedByRecord)
    (ds : Option String → List ESDoc) :
    getCitedByArticles (Except.ok cs) (Except.ok rs) (fun k => Except.ok (ds k)) =
      Except.ok ⟨sortByNameKey ((rs.map fun r => ds r.a.number).flatten),
        extractTotal cs⟩ := by
  unfold getCitedByArticles
  simp only [List.map_map, Function.comp_def, promiseAll_map_ok]
  rfl

theorem getArticleCitingOtherArticles_ok (cs : List Neo4jInt)
    (rs : List CitingRecord) (ds : Option String → List ESDoc) :
    getArticleCitingOtherArticles (Except.ok cs) (Except.ok rs)
        (fun k => Except.ok (ds k)) =
      Except.ok ⟨sortByNameKey ((rs.map fun r => ds r.b.number).flatten),
        extractTotal cs⟩ := by
  unfold getArticleCitingOtherArticles
  simp only [List.map_map, Function.comp_def, promiseAll_map_ok]
  rfl

theorem getCasesCitingArticle_ok (cs : List Neo4jInt) (rs : List CaseRecord)
    (ds : Option String → List ESDoc) :
    getCasesCitingArticle (Except.ok cs) (Except.ok rs)
        (fun k => Except.ok (ds k)) =
      Except.ok ⟨sortByCaseNameKey ((rs.map fun r => ds r.c.number).flatten),
        extractTotal cs⟩ := by
  unfold getCasesCitingArticle
  simp only [List.map_map, Function.comp_def, promiseAll_map_ok]
  rfl

theorem getReferencesWithArticle_ok (cs : List Neo4jInt)
    (rs : List ReferenceRecord) :
    getReferencesWithArticle (Except.ok cs) (Except.ok rs) =
      Except.ok ⟨rs.map fun rec => rec.r, extractTotal cs⟩ := rfl

theorem wherePass_triOr (a b : Tri) :
    wherePass (triOr a b) = (wherePass a || wherePass b) := by
  cases a <;> cases b <;> rfl

theorem wherePass_triContains (o : Option String) (t : String) :
    wherePass (triContainsLower o t) = true ↔ fieldMatches o t := by
  cases o with
  | none => simp [triContainsLower, wherePass, fieldMatches]
  | some s =>
      by_cases h : strContainsSub (strToLower s) (strToLower t) = true
      · simp [triContainsLower, wherePass, fieldMatches, h]
      · simp only [triContainsLower, if_neg h]
        simp [wherePass, fieldMatches, h]

theorem filterRows_of_present (cond : String → GNode → Option GNode → Tri)
    (t : String) (h : searchTermPresent (some t) = true)
    (rows : List (GNode × Option GNode)) :
    filterRows cond (some t) rows =
      rows.filter fun r => wherePass (cond t r.1 r.2) := by
  have ht : (t == "") = false := by
    simpa [searchTermPresent] using h
  simp [filterRows, ht]

theorem filterBareRows_of_present (cond : String → GNode → Tri)
    (t : String) (h : searchTermPresent (some t) = true)
    (rows : List GNode) :
    filterBareRows cond (some t) rows =
      rows.filter fun r => wherePass (cond t r) := by
  have ht : (t == "") = false := by
    simpa [searchTermPresent] using h
  simp [filterBareRows, ht]

theorem filterRows_of_absent (cond : String → GNode → Option GNode → Tri)
    (t : Option String) (h : searchTermPresent t = false)
    (rows : List (GNode × Option GNode)) :
    filterRows cond t rows = rows := by
  cases t with
  | none => rfl
  | some s =>
      have hs : (s == "") = true := by
        simpa [searchTermPresent] using h
      simp [filterRows, hs]

theorem filterBareRows_of_absent (cond : String → GNode → Tri)
    (t : Option String) (h : searchTermPresent t = false)
    (rows : List GNode) :
    filterBareRows cond t rows = rows := by
  cases t with
  | none => rfl
  | some s =>
      have hs : (s == "") = true := by
        simpa [searchTermPresent] using h
      simp [filterBareRows, hs]

theorem sliced_length_le {α : Type} (l : List α) (sk li : Nat) :
    ((l.drop sk).take li).length ≤ l.length := by
  rw [List.length_take, List.length_drop]
  omega

theorem pageAll_length_le {ρ σ : Type} [BEq σ] (le : σ → σ → Bool)
    (proj : ρ → σ) (l : List ρ) :
    (sSort le (dedupFirst (l.map proj))).length ≤ l.length := by
  rw [length_sSort]
  exact Nat.le_trans (length_dedupFirst_le _) (by rw [List.length_map])

theorem pageAll_length_eq {ρ σ : Type} [DecidableEq σ] (le : σ → σ → Bool)
    (proj : ρ → σ) (l : List ρ) (h : (l.map proj).Nodup) :
    (sSort le (dedupFirst (l.map proj))).length = l.length := by
  rw [length_sSort, dedupFirst_of_nodup _ h, List.length_map]

theorem getCitedByArticles_err_lookup (e : QueryError) (cs : List Neo4jInt)
    (rs₁ rs₂ : List CitedByRecord) (r : CitedByRecord)
    (ds : Option String → List ESDoc) :
    getCitedByArticles (Except.ok cs) (Except.ok (rs₁ ++ r :: rs₂))
      (fun k => if k == r.a.number then Except.error e else Except.ok (ds k)) =
      Except.error e := by
  have hX : promiseAll ((rs₁ ++ r :: rs₂).map
      ((fun articleData : ArticleData =>
          if articleData.props.number == r.a.number then Except.error e
          else Except.ok (ds articleData.props.number)) ∘
        fun record => ArticleData.mk record.a record.elementId record.name)) =
      Except.error e := by
    refine promiseAll_map_err e _ rs₁ r rs₂ (by simp) ?_
    intro x hx
    by_cases hk : x.a.number = r.a.number
    · exact Or.inl (by simp [Function.comp_def, hk])
    · exact Or.inr ⟨ds x.a.number, by simp [Function.comp_def, hk]⟩
  show Except.bind (promiseAll (((rs₁ ++ r :: rs₂).map
      fun record => ArticleData.mk record.a record.elementId record.name).map
      fun articleData =>
        if articleData.props.number == r.a.number then Except.error e
        else Except.ok (ds articleData.props.number))) _ = _
  rw [List.map_map, hX]
  rfl

theorem getArticleCitingOtherArticles_err_lookup (e : QueryError)
    (cs : List Neo4jInt) (rs₁ rs₂ : List CitingRecord) (r : CitingRecord)
    (ds : Option String → List ESDoc) :
    getArticleCitingOtherArticles (Except.ok cs) (Except.ok (rs₁ ++ r :: rs₂))
      (fun k => if k == r.b.number then Except.error e else Except.ok (ds k)) =
      Except.error e := by
  have hX : promiseAll ((rs₁ ++ r :: rs₂).map
      ((fun articleData : ArticleData =>
          if articleData.props.number == r.b.number then Except.error e
          else Except.ok (ds articleData.props.number)) ∘
        fun record => ArticleData.mk record.b record.elementId record.name)) =
      Except.error e := by
    refine promiseAll_map_err e _ rs₁ r rs₂ (by simp) ?_
    intro x hx
    by_cases hk : x.b.number = r.b.number
    · exact Or.inl (by simp [Function.comp_def, hk])
    · exact Or.inr ⟨ds x.b.number, by simp [Function.comp_def, hk]⟩
  show Except.bind (promiseAll (((rs₁ ++ r :: rs₂).map
      fun record => ArticleData.mk record.b record.elementId record.name).map
      fun articleData =>
        if articleData.props.number == r.b.number then Except.error e
        else Except.ok (ds articleData.props.number))) _ = _
  rw [List.map_map, hX]
  rfl

theorem getCasesCitingArticle_err_lookup (e : QueryError) (cs : List Neo4jInt)
    (rs₁ rs₂ : List CaseRecord) (r : CaseRecord)
    (ds : Option String → List ESDoc) :
    getCasesCitingArticle (Except.ok cs) (Except.ok (rs₁ ++ r :: rs₂))
      (fun k => if k == r.c.number then Except.error e else Except.ok (ds k)) =
      Except.error e := by
  have hX : promiseAll ((rs₁ ++ r :: rs₂).map
      ((fun caseData : CaseData =>
          if caseData.props.number == r.c.number then Except.error e
          else Except.ok (ds caseData.props.number)) ∘
        fun record => CaseData.mk record.c record.elementId record.caseName)) =
      Except.error e := by
    refine promiseAll_map_err e _ rs₁ r rs₂ (by simp) ?_
    intro x hx
    by_cases hk : x.c.number = r.c.number
    · exact Or.inl (by simp [Function.comp_def, hk])
    · exact Or.inr ⟨ds x.c.number, by simp [Function.comp_def, hk]⟩
  show Except.bind (promiseAll (((rs₁ ++ r :: rs₂).map
      fun record => CaseData.mk record.c record.elementId record.caseName).map
      fun caseData =>
        if caseData.props.number == r.c.number then Except.error e
        else Except.ok (ds caseData.props.number))) _ = _
  rw [List.map_map, hX]
  rfl

/-! ### Claim theorems -/

/-- C3: for every flattened sequence of enrichment documents, the merge
step moves every document carrying a (truthy) resolved name — caseName
for the case-flavoured sort — in front of every document without one,
and documents with equal name-presence keep their original relative
order: the sorted sequence is exactly the in-order partition of the
input by name-presence. -/
theorem c3_merge_stable_partition (l : List ESDoc) :
    sortByNameKey l =
      l.filter (fun d => isTruthy d.name) ++
        l.filter (fun d => !isTruthy d.name) ∧
    sortByCaseNameKey l =
      l.filter (fun d => isTruthy d.caseName) ++
        l.filter (fun d => !isTruthy d.caseName) := by
  constructor
  · unfold sortByNameKey
    rw [sSort_binary_partition hasNameKey hasNameKey_binary l]
    simp only [hasNameKey_eq_one, hasNameKey_eq_zero]
  · unfold sortByCaseNameKey
    rw [sSort_binary_partition hasCaseNameKey hasCaseNameKey_binary l]
    simp only [hasCaseNameKey_eq_one, hasCaseNameKey_eq_zero]

/-- C9: a document whose name (or caseName, for the case-flavoured sort)
is the empty string — or absent, both being falsy — is ordered by the
merge step exactly like a document with no resolved name: the sorted
output splits into a truthy-named block followed by a block of documents
without truthy names, and the document lands in the second block. -/
theorem c9_falsy_name_sorts_last (l : List ESDoc) (d : ESDoc) :
    ((d.name = none ∨ d.name = some "") →
      ∃ ds₁ ds₂, sortByNameKey l = ds₁ ++ ds₂ ∧
        (∀ x ∈ ds₁, isTruthy x.name = true) ∧
        (∀ x ∈ ds₂, isTruthy x.name = false) ∧
        (d ∈ l → d ∈ ds₂)) ∧
    ((d.caseName = none ∨ d.caseName = some "") →
      ∃ ds₁ ds₂, sortByCaseNameKey l = ds₁ ++ ds₂ ∧
        (∀ x ∈ ds₁, isTruthy x.caseName = true) ∧
        (∀ x ∈ ds₂, isTruthy x.caseName = false) ∧
        (d ∈ l → d ∈ ds₂)) := by
  constructor
  · intro h
    refine ⟨l.filter (fun x => isTruthy x.name),
      l.filter (fun x => !isTruthy x.name), ?_, ?_, ?_, ?_⟩
    · unfold sortByNameKey
      rw [sSort_binary_partition hasNameKey hasNameKey_binary l]
      simp only [hasNameKey_eq_one, hasNameKey_eq_zero]
    · exact fun x hx => (List.mem_filter.mp hx).2
    · intro x hx
      have := (List.mem_filter.mp hx).2
      simpa using this
    · intro hd
      refine List.mem_filter.mpr ⟨hd, ?_⟩
      rcases h with h | h <;> simp [isTruthy, h]
  · intro h
    refine ⟨l.filter (fun x => isTruthy x.caseName),
      l.filter (fun x => !isTruthy x.caseName), ?_, ?_, ?_, ?_⟩
    · unfold sortByCaseNameKey
      rw [sSort_binary_partition hasCaseNameKey hasCaseNameKey_binary l]
      simp only [hasCaseNameKey_eq_one, hasCaseNameKey_eq_zero]
    · exact fun x hx => (List.mem_filter.mp hx).2
    · intro x hx
      have := (List.mem_filter.mp hx).2
      simpa using this
    · intro hd
      refine List.mem_filter.mpr ⟨hd, ?_⟩
      rcases h with h | h <;> simp [isTruthy, h]

/-- Witness for C9 at a concrete input: a document with an empty-string
name sorts into the nameless block. -/
theorem c9_falsy_name_sorts_last_witness :
    ∃ ds₁ ds₂, sortByNameKey [docEmptyName, docNamed] = ds₁ ++ ds₂ ∧
      (∀ x ∈ ds₁, isTruthy x.name = true) ∧
      (∀ x ∈ ds₂, isTruthy x.name = false) ∧
      (docEmptyName ∈ [docEmptyName, docNamed] → docEmptyName ∈ ds₂) :=
  (c9_falsy_name_sorts_last [docEmptyName, docNamed] docEmptyName).1 (Or.inr rfl)

/-- C4: for every non-empty search term, the count and page queries of
the three Name-carrying relations filter the matched rows with the same
predicate, and that predicate accepts a row exactly when at least one
declared field — the optionally resolved Name included — case-folded,
contains the case-folded term as a substring; a null field never matches
by itself and never blocks a row whose other fields match. -/
theorem c4_predicate_semantics (t : String)
    (h : searchTermPresent (some t) = true) :
    (∀ g id, citedByFiltered g id (some t) =
        (citedByRows g id).filter fun r => wherePass (condArticles t r.1 r.2)) ∧
    (∀ g id, citingFiltered g id (some t) =
        (citingRows g id).filter fun r => wherePass (condArticles t r.1 r.2)) ∧
    (∀ g id, casesFiltered g id (some t) =
        (casesRows g id).filter fun r => wherePass (condCases t r.1 r.2)) ∧
    (∀ x n, wherePass (condArticles t x n) = true ↔
        (fieldMatches (nameShort n) t ∨ fieldMatches x.props.number t ∨
          fieldMatches x.props.text t)) ∧
    (∀ x n, wherePass (condCases t x n) = true ↔
        (fieldMatches (nameShort n) t ∨ fieldMatches x.props.number t ∨
          fieldMatches x.props.judgment t ∨ fieldMatches x.props.facts t ∨
          fieldMatches x.props.reasoning t ∨ fieldMatches x.props.headnotes t ∨
          fieldMatches x.props.year t ∨
          fieldMatches x.props.decision_type t)) := by
  refine ⟨fun g id => filterRows_of_present _ _ h _,
    fun g id => filterRows_of_present _ _ h _,
    fun g id => filterRows_of_present _ _ h _, ?_, ?_⟩
  · intro x n
    simp [condArticles, wherePass_triOr, wherePass_triContains]
  · intro x n
    simp [condCases, wherePass_triOr, wherePass_triContains]

/-- Witness for C4 at the concrete non-empty term "z". -/
theorem c4_predicate_semantics_witness :
    searchTermPresent (some "z") = true ∧
    ((∀ g id, citedByFiltered g id (some "z") =
        (citedByRows g id).filter fun r => wherePass (condArticles "z" r.1 r.2)) ∧
    (∀ g id, citingFiltered g id (some "z") =
        (citingRows g id).filter fun r => wherePass (condArticles "z" r.1 r.2)) ∧
    (∀ g id, casesFiltered g id (some "z") =
        (casesRows g id).filter fun r => wherePass (condCases "z" r.1 r.2)) ∧
    (∀ x n, wherePass (condArticles "z" x n) = true ↔
        (fieldMatches (nameShort n) "z" ∨ fieldMatches x.props.number "z" ∨
          fieldMatches x.props.text "z")) ∧
    (∀ x n, wherePass (condCases "z" x n) = true ↔
        (fieldMatches (nameShort n) "z" ∨ fieldMatches x.props.number "z" ∨
          fieldMatches x.props.judgment "z" ∨ fieldMatches x.props.facts "z" ∨
          fieldMatches x.props.reasoning "z" ∨ fieldMatches x.props.headnotes "z" ∨
          fieldMatches x.props.year "z" ∨
          fieldMatches x.props.decision_type "z"))) :=
  ⟨by decide, c4_predicate_semantics "z" (by decide)⟩

/-- C8: when the search term is absent or empty, no predicate is
emitted: every matched row — rows with a null Name included — survives
the filter for all four relations, each page query returns at most as
many rows as the count query counts, and the total returned by each page
operation does not depend on skip or limit. -/
theorem c8_empty_search_all_rows (g : Graph) (id : String) (t : Option String)
    (h : searchTermPresent t = false) (es : Option String → List ESDoc)
    (sk li sk' li' : Nat) :
    citedByFiltered g id t = citedByRows g id ∧
    citingFiltered g id t = citingRows g id ∧
    casesFiltered g id t = casesRows g id ∧
    referencesFiltered g id t = referencesRows g id ∧
    (citedByPage g id t sk li).length ≤ citedByCountValue g id t ∧
    (citingPage g id t sk li).length ≤ citingCountValue g id t ∧
    (casesPage g id t sk li).length ≤ casesCountValue g id t ∧
    (referencesPage g id t sk li).length ≤ referencesCountValue g id t ∧
    (runCitedBy g es ⟨id, t, sk, li⟩).map ArticlesPageResult.total =
      (runCitedBy g es ⟨id, t, sk', li'⟩).map ArticlesPageResult.total ∧
    (runCiting g es ⟨id, t, sk, li⟩).map ArticlesPageResult.total =
      (runCiting g es ⟨id, t, sk', li'⟩).map ArticlesPageResult.total ∧
    (runCasesCiting g es ⟨id, t, sk, li⟩).map CasesPageResult.total =
      (runCasesCiting g es ⟨id, t, sk', li'⟩).map CasesPageResult.total ∧
    (runReferences g ⟨id, t, sk, li⟩).map ReferencesPageResult.total =
      (runReferences g ⟨id, t, sk', li'⟩).map ReferencesPageResult.total := by
  have hrefsAll : (referencesPageAll g id t).length ≤ referencesCountValue g id t := by
    unfold referencesPageAll
    refine Nat.le_trans (length_dedupFirst_le _) ?_
    unfold referencesProjected referencesCountValue
    rw [List.length_map]
  refine ⟨filterRows_of_absent _ t h _, filterRows_of_absent _ t h _,
    filterRows_of_absent _ t h _, filterBareRows_of_absent _ t h _,
    Nat.le_trans (sliced_length_le _ sk li)
      (pageAll_length_le citedByLe _ (citedByFiltered g id t)),
    Nat.le_trans (sliced_length_le _ sk li)
      (pageAll_length_le citingLe _ (citingFiltered g id t)),
    Nat.le_trans (sliced_length_le _ sk li)
      (pageAll_length_le casesLe _ (casesFiltered g id t)),
    Nat.le_trans (sliced_length_le _ sk li) hrefsAll, ?_, ?_, ?_, ?_⟩
  · simp [runCitedBy, getCitedByArticles_ok, Except.map]
  · simp [runCiting, getArticleCitingOtherArticles_ok, Except.map]
  · simp [runCasesCiting, getCasesCitingArticle_ok, Except.map]
  · simp [runReferences, getReferencesWithArticle_ok, Except.map]

/-- Witness for C8 at a concrete graph and absent search term. -/
theorem c8_empty_search_all_rows_witness :
    searchTermPresent none = false ∧
    (citedByFiltered gParallelCites "5" none = citedByRows gParallelCites "5" ∧
    citingFiltered gParallelCites "5" none = citingRows gParallelCites "5" ∧
    casesFiltered gParallelCites "5" none = casesRows gParallelCites "5" ∧
    referencesFiltered gParallelCites "5" none = referencesRows gParallelCites "5" ∧
    (citedByPage gParallelCites "5" none 0 1).length ≤
      citedByCountValue gParallelCites "5" none ∧
    (citingPage gParallelCites "5" none 0 1).length ≤
      citingCountValue gParallelCites "5" none ∧
    (casesPage gParallelCites "5" none 0 1).length ≤
      casesCountValue gParallelCites "5" none ∧
    (referencesPage gParallelCites "5" none 0 1).length ≤
      referencesCountValue gParallelCites "5" none ∧
    (runCitedBy gParallelCites (fun _ => []) ⟨"5", none, 0, 1⟩).map
        ArticlesPageResult.total =
      (runCitedBy gParallelCites (fun _ => []) ⟨"5", none, 2, 3⟩).map
        ArticlesPageResult.total ∧
    (runCiting gParallelCites (fun _ => []) ⟨"5", none, 0, 1⟩).map
        ArticlesPageResult.total =
      (runCiting gParallelCites (fun _ => []) ⟨"5", none, 2, 3⟩).map
        ArticlesPageResult.total ∧
    (runCasesCiting gParallelCites (fun _ => []) ⟨"5", none, 0, 1⟩).map
        CasesPageResult.total =
      (runCasesCiting gParallelCites (fun _ => []) ⟨"5", none, 2, 3⟩).map
        CasesPageResult.total ∧
    (runReferences gParallelCites ⟨"5", none, 0, 1⟩).map
        ReferencesPageResult.total =
      (runReferences gParallelCites ⟨"5", none, 2, 3⟩).map
        ReferencesPageResult.total) :=
  ⟨rfl, c8_empty_search_all_rows gParallelCites "5" none rfl (fun _ => []) 0 1 2 3⟩

/-- C1 (amended): for each of the four relation queries, the count query
and the page query filter the identical matched row set with the
identical predicate; the count aggregates every surviving row without
deduplication, so it is an upper bound of the DISTINCT page row count
(taken with skip = 0 and no limit), with equality whenever the projected
rows are duplicate-free. -/
theorem c1_count_vs_page (g : Graph) (id : String) (t : Option String) :
    (citedByCountValue g id t = (citedByFiltered g id t).length ∧
      (citedByPageAll g id t).length ≤ citedByCountValue g id t ∧
      ((citedByProjected g id t).Nodup →
        (citedByPageAll g id t).length = citedByCountValue g id t)) ∧
    (citingCountValue g id t = (citingFiltered g id t).length ∧
      (citingPageAll g id t).length ≤ citingCountValue g id t ∧
      ((citingProjected g id t).Nodup →
        (citingPageAll g id t).length = citingCountValue g id t)) ∧
    (casesCountValue g id t = (casesFiltered g id t).length ∧
      (casesPageAll g id t).length ≤ casesCountValue g id t ∧
      ((casesProjected g id t).Nodup →
        (casesPageAll g id t).length = casesCountValue g id t)) ∧
    (referencesCountValue g id t = (referencesFiltered g id t).length ∧
      (referencesPageAll g id t).length ≤ referencesCountValue g id t ∧
      ((referencesProjected g id t).Nodup →
        (referencesPageAll g id t).length = referencesCountValue g id t)) := by
  refine ⟨⟨rfl, pageAll_length_le citedByLe _ (citedByFiltered g id t),
      fun h => pageAll_length_eq citedByLe _ (citedByFiltered g id t) h⟩,
    ⟨rfl, pageAll_length_le citingLe _ (citingFiltered g id t),
      fun h => pageAll_length_eq citingLe _ (citingFiltered g id t) h⟩,
    ⟨rfl, pageAll_length_le casesLe _ (casesFiltered g id t),
      fun h => pageAll_length_eq casesLe _ (casesFiltered g id t) h⟩,
    ⟨rfl, ?_, fun h => ?_⟩⟩
  · unfold referencesPageAll
    refine Nat.le_trans (length_dedupFirst_le _) ?_
    unfold referencesProjected referencesCountValue
    rw [List.length_map]
  · unfold referencesPageAll
    rw [dedupFirst_of_nodup _ h]
    unfold referencesProjected referencesCountValue
    rw [List.length_map]

/-- Counterexample to C1 as stated: with two parallel CITES
relationships from article 1 to article 5, the count query (no DISTINCT)
returns 2 while the page query with skip 0 and no limit returns a single
distinct row. -/
theorem c1_count_vs_page_counterexample :
    citedByCountValue gParallelCites "5" none = 2 ∧
    (citedByPageAll gParallelCites "5" none).length = 1 := by
  decide

/-- Witness for C1 (amended): on a duplicate-free instance the count and
the unlimited distinct page row count agree. -/
theorem c1_count_vs_page_witness :
    (citedByProjected gParallelCites "1" none).Nodup ∧
    (citedByPageAll gParallelCites "1" none).length =
      citedByCountValue gParallelCites "1" none :=
  ⟨by decide, (c1_count_vs_page gParallelCites "1" none).1.2.2 (by decide)⟩

/-- C2 (amended): when the count query returns zero rows, the four page
operations default the total to 0 through optional chaining, but the
four standalone count-only operations — which index the empty response
without a guard — raise a TypeError instead. -/
theorem c2_zero_count_rows (rsA : List CitedByRecord) (rsB : List CitingRecord)
    (rsC : List CaseRecord) (rsR : List ReferenceRecord)
    (ds : Option String → List ESDoc) :
    (∃ items, getCitedByArticles (Except.ok []) (Except.ok rsA)
        (fun k => Except.ok (ds k)) = Except.ok ⟨items, 0⟩) ∧
    (∃ items, getArticleCitingOtherArticles (Except.ok []) (Except.ok rsB)
        (fun k => Except.ok (ds k)) = Except.ok ⟨items, 0⟩) ∧
    (∃ items, getCasesCitingArticle (Except.ok []) (Except.ok rsC)
        (fun k => Except.ok (ds k)) = Except.ok ⟨items, 0⟩) ∧
    (∃ items, getReferencesWithArticle (Except.ok []) (Except.ok rsR) =
        Except.ok ⟨items, 0⟩) ∧
    getCitedByArticlesCount (Except.ok []) =
      Except.error QueryError.typeError ∧
    getArticleCitingOtherArticlesCount (Except.ok []) =
      Except.error QueryError.typeError ∧
    getCasesCitingArticleCount (Except.ok []) =
      Except.error QueryError.typeError ∧
    getReferencesWithArticleCount (Except.ok []) =
      Except.error QueryError.typeError :=
  ⟨⟨_, getCitedByArticles_ok [] rsA ds⟩,
    ⟨_, getArticleCitingOtherArticles_ok [] rsB ds⟩,
    ⟨_, getCasesCitingArticle_ok [] rsC ds⟩,
    ⟨_, getReferencesWithArticle_ok [] rsR⟩,
    rfl, rfl, rfl, rfl⟩

/-- Counterexample to C2 as stated: the standalone cited-by count
operation raises a TypeError on a zero-row count response instead of
returning 0. -/
theorem c2_zero_count_rows_counterexample :
    getCitedByArticlesCount (Except.ok []) = Except.error QueryError.typeError ∧
    ∀ n, getCitedByArticlesCount (Except.ok []) ≠ Except.ok n :=
  ⟨rfl, fun _ h => Except.noConfusion h⟩

/-- C5: the total returned by every page operation is the defensively
extracted scalar of the count response alone — whatever the search index
answers — and there are store responses for which the total differs from
the number of returned items. -/
theorem c5_total_graph_side_only (cs : List Neo4jInt) (rsA : List CitedByRecord)
    (rsB : List CitingRecord) (rsC : List CaseRecord) (rsR : List ReferenceRecord)
    (ds : Option String → List ESDoc) :
    (∃ items, getCitedByArticles (Except.ok cs) (Except.ok rsA)
        (fun k => Except.ok (ds k)) = Except.ok ⟨items, extractTotal cs⟩) ∧
    (∃ items, getArticleCitingOtherArticles (Except.ok cs) (Except.ok rsB)
        (fun k => Except.ok (ds k)) = Except.ok ⟨items, extractTotal cs⟩) ∧
    (∃ items, getCasesCitingArticle (Except.ok cs) (Except.ok rsC)
        (fun k => Except.ok (ds k)) = Except.ok ⟨items, extractTotal cs⟩) ∧
    getReferencesWithArticle (Except.ok cs) (Except.ok rsR) =
      Except.ok ⟨rsR.map fun rec => rec.r, extractTotal cs⟩ ∧
    (∃ res, getCitedByArticles (Except.ok [⟨2, 0⟩]) (Except.ok [sampleRecord])
        (fun _ => Except.ok []) = Except.ok res ∧
      res.total ≠ res.articles.length) :=
  ⟨⟨_, getCitedByArticles_ok cs rsA ds⟩,
    ⟨_, getArticleCitingOtherArticles_ok cs rsB ds⟩,
    ⟨_, getCasesCitingArticle_ok cs rsC ds⟩,
    getReferencesWithArticle_ok cs rsR,
    ⟨⟨[], 2⟩, rfl, by decide⟩⟩

/-- C7 (amended): the references operation performs no enrichment and no
merge: its items are exactly the Reference property maps of the page
rows in page order (so their count equals the page row count), and its
total is the defensively extracted value of the count query — which
counts matching rows without DISTINCT. -/
theorem c7_references_raw (cs : List Neo4jInt) (rs : List ReferenceRecord)
    (g : Graph) (f : Filter) :
    getReferencesWithArticle (Except.ok cs) (Except.ok rs) =
      Except.ok ⟨rs.map fun rec => rec.r, extractTotal cs⟩ ∧
    (rs.map fun rec => rec.r).length = rs.length ∧
    runReferences g f = Except.ok
      ⟨(referencesPage g f.articleId f.searchTerm f.skip f.limit).map
          fun rec => rec.r,
        jsOr0 (Neo4jInt.ofCount
          (referencesCountValue g f.articleId f.searchTerm)).low⟩ :=
  ⟨rfl, List.length_map _ _, rfl⟩

/-- Counterexample to C7 as stated: with two parallel MENTIONS
relationships the operation returns total 2 while the distinct page row
set — and hence the item list — has a single element, so the total is
not the distinct count. -/
theorem c7_references_raw_counterexample :
    runReferences gParallelMentions ⟨"5", none, 0, 10⟩ =
      Except.ok ⟨[{ context := some "ctx" }], 2⟩ ∧
    (referencesPageAll gParallelMentions "5" none).length = 1 := by
  exact ⟨rfl, by decide⟩

/-- C10: every operation reads only the low 32-bit word of the driver's
two-word count value (the high word is universally discarded), so a
store count c yields total c mod 2^32, and a low word of 0 yields 0. -/
theorem c10_low_word_extraction (c hi : Nat) (rsA : List CitedByRecord)
    (rsB : List CitingRecord) (rsC : List CaseRecord)
    (rsR : List ReferenceRecord) (ds : Option String → List ESDoc) :
    (Neo4jInt.ofCount c).low = c % 2 ^ 32 ∧
    (Neo4jInt.ofCount c).high = c / 2 ^ 32 ∧
    (∃ items, getCitedByArticles (Except.ok [⟨c % 2 ^ 32, hi⟩])
        (Except.ok rsA) (fun k => Except.ok (ds k)) =
        Except.ok ⟨items, c % 2 ^ 32⟩) ∧
    (∃ items, getArticleCitingOtherArticles (Except.ok [⟨c % 2 ^ 32, hi⟩])
        (Except.ok rsB) (fun k => Except.ok (ds k)) =
        Except.ok ⟨items, c % 2 ^ 32⟩) ∧
    (∃ items, getCasesCitingArticle (Except.ok [⟨c % 2 ^ 32, hi⟩])
        (Except.ok rsC) (fun k => Except.ok (ds k)) =
        Except.ok ⟨items, c % 2 ^ 32⟩) ∧
    getReferencesWithArticle (Except.ok [⟨c % 2 ^ 32, hi⟩]) (Except.ok rsR) =
      Except.ok ⟨rsR.map fun rec => rec.r, c % 2 ^ 32⟩ ∧
    getCitedByArticlesCount (Except.ok [⟨c % 2 ^ 32, hi⟩]) =
      Except.ok (c % 2 ^ 32) ∧
    getArticleCitingOtherArticlesCount (Except.ok [⟨c % 2 ^ 32, hi⟩]) =
      Except.ok (c % 2 ^ 32) ∧
    getCasesCitingArticleCount (Except.ok [⟨c % 2 ^ 32, hi⟩]) =
      Except.ok (c % 2 ^ 32) ∧
    getReferencesWithArticleCount (Except.ok [⟨c % 2 ^ 32, hi⟩]) =
      Except.ok (c % 2 ^ 32) ∧
    extractTotal [⟨0, hi⟩] = 0 := by
  refine ⟨rfl, rfl, ?_, ?_, ?_, ?_, rfl, rfl, rfl, rfl, rfl⟩
  · exact ⟨_, by rw [getCitedByArticles_ok, extractTotal_cons]⟩
  · exact ⟨_, by rw [getArticleCitingOtherArticles_ok, extractTotal_cons]⟩
  · exact ⟨_, by rw [getCasesCitingArticle_ok, extractTotal_cons]⟩
  · rw [getReferencesWithArticle_ok, extractTotal_cons]

/-- C6: for every page operation, a failing count query, a failing page
query, or a failing per-row search-index lookup fails the whole
operation with that same error and no partial result: the count error
propagates whatever the page response is, the page error propagates
after a successful count, and a lookup error at any position of the page
row list propagates even when all other lookups succeed. -/
theorem c6_error_propagation (e : QueryError) (cs : List Neo4jInt)
    (pA : Except QueryError (List CitedByRecord))
    (pB : Except QueryError (List CitingRecord))
    (pC : Except QueryError (List CaseRecord))
    (pR : Except QueryError (List ReferenceRecord))
    (es : Option String → Except QueryError (List ESDoc))
    (rsA₁ rsA₂ : List CitedByRecord) (rA : CitedByRecord)
    (rsB₁ rsB₂ : List CitingRecord) (rB : CitingRecord)
    (rsC₁ rsC₂ : List CaseRecord) (rC : CaseRecord)
    (ds : Option String → List ESDoc) :
    (getCitedByArticles (Except.error e) pA es = Except.error e ∧
      getCitedByArticles (Except.ok cs) (Except.error e) es = Except.error e ∧
      getCitedByArticles (Except.ok cs) (Except.ok (rsA₁ ++ rA :: rsA₂))
        (fun k => if k == rA.a.number then Except.error e
          else Except.ok (ds k)) = Except.error e) ∧
    (getArticleCitingOtherArticles (Except.error e) pB es = Except.error e ∧
      getArticleCitingOtherArticles (Except.ok cs) (Except.error e) es =
        Except.error e ∧
      getArticleCitingOtherArticles (Except.ok cs)
        (Except.ok (rsB₁ ++ rB :: rsB₂))
        (fun k => if k == rB.b.number then Except.error e
          else Except.ok (ds k)) = Except.error e) ∧
    (getCasesCitingArticle (Except.error e) pC es = Except.error e ∧
      getCasesCitingArticle (Except.ok cs) (Except.error e) es =
        Except.error e ∧
      getCasesCitingArticle (Except.ok cs) (Except.ok (rsC₁ ++ rC :: rsC₂))
        (fun k => if k == rC.c.number then Except.error e
          else Except.ok (ds k)) = Except.error e) ∧
    (getReferencesWithArticle (Except.error e) pR = Except.error e ∧
      getReferencesWithArticle (Except.ok cs) (Except.error e) =
        Except.error e) :=
  ⟨⟨rfl, rfl, getCitedByArticles_err_lookup e cs rsA₁ rsA₂ rA ds⟩,
    ⟨rfl, rfl, getArticleCitingOtherArticles_err_lookup e cs rsB₁ rsB₂ rB ds⟩,
    ⟨rfl, rfl, getCasesCitingArticle_err_lookup e cs rsC₁ rsC₂ rC ds⟩,
    ⟨rfl, rfl⟩⟩

end TENJI
